import Mathlib

/-!
Verification of the asynchronous task bridge of `android-utils-rs`
(`src/android-utils/rust/os.rs`) and its Android log adapter
(`src/android-utils/rust/log.rs`), as a shallow embedding in Lean 4.

Naming follows the Rust source: `wake_direct`, `wake_fallback`, `wake`,
`wake_by_ref` embed `HandlerWaker`'s methods; `wrapFutureStep` embeds one
invocation of the closure built by `JHandlerSpawn::wrap_future`;
`init_fallback_thread`, `post_spawn`, `spawn_obj` embed the functions of the
same names; `fallback_loop` embeds the receive loop of the fallback dispatch
thread; `enabledImpl` / `logImpl` embed `impl Log for AndroidLog`.

JNI-level effects are made explicit: `JErr` stands for `jni::errors::Error`,
`Panic` for a Rust panic raised by `.unwrap()`, and state records carry the
process-wide mutable data (`FALLBACK_SENDER`, the channel contents, the
pending Java exception, the `log` crate's max level).
-/

namespace AndroidUtils

/-- A JNI-level error (`jni::errors::Error`): the current thread cannot obtain
the `JNIEnv` (`vm.get_env()` fails because the thread is detached), a class or
method lookup failed, or a Java exception was raised by a call. -/
inductive JErr
  | notAttached
  | lookupFailed
  | javaException
deriving DecidableEq, Repr

/-- A Rust panic raised by `.unwrap()`: either on a `None` option or on an
`Err` result. -/
inductive Panic
  | unwrapNone
  | unwrapErr (e : JErr)
deriving DecidableEq, Repr

/-- The data captured by `HandlerWaker` in `os.rs`: the global reference to
the `android.os.Handler` and the global reference to the `Runnable` work item
(the `JavaVM` itself carries no observable identity and is left implicit;
object identities are numbered). -/
structure HandlerWaker where
  handler : Nat
  runnable : Nat
deriving DecidableEq, Repr

/-- An observable host-boundary effect: a `Handler.post(runnable)` call, with
the boolean the queue returned (`false` once the queue has shut down). -/
inductive Effect
  | post (handler : Nat) (runnable : Nat) (accepted : Bool)
deriving DecidableEq, Repr

/-- What the host environment answers to the current thread during one
`wake_direct` attempt: whether `vm.get_env()` succeeds (the thread is
attached), whether the `android/os/Handler` class/method lookup in
`JHandler::from_env` succeeds, and, per handler identity, what
`Handler.post` returns (`.ok b` for a normal return of `b`, `.error e` for a
JNI failure such as a thrown exception). -/
structure HostEnv where
  attached : Bool
  lookupOk : Bool
  postOutcome : Nat → Except JErr Bool

/-- `HandlerWaker::wake_direct`: obtain the env for the current thread, build
a `JHandler` (class/method lookup), then `handler.post(self.runnable)`.  Any
JNI error propagates as `Err`; the boolean returned by `post` is discarded
(`handler.post(...)?; Ok(())`), so a shut-down queue (`post` returning
`false`) still yields `Ok`. -/
def wake_direct (env : HostEnv) (w : HandlerWaker) : Except JErr (List Effect) :=
  if ¬ env.attached then .error .notAttached
  else if ¬ env.lookupOk then .error .lookupFailed
  else
    match env.postOutcome w.handler with
    | .error e => .error e
    | .ok b => .ok [.post w.handler w.runnable b]

/-- The process-wide state of `static FALLBACK_SENDER:
OnceCell<Mutex<Option<Sender<Arc<HandlerWaker>>>>>` together with the
channel's buffered contents and bookkeeping for how often the dispatch thread
was started.  `cell = none` models the uninitialised `OnceCell`;
`cell = some true` models an initialised cell whose mutex holds
`Some(sender)`; `cell = some false` models an initialised cell whose sender
was taken by the shutdown hook. -/
structure FallbackState where
  cell : Option Bool
  queue : List HandlerWaker
  startCount : Nat
deriving DecidableEq, Repr

/-- The process state before anything ran: `OnceCell` empty, channel absent,
dispatch thread never started. -/
def FallbackState.initial : FallbackState :=
  { cell := none, queue := [], startCount := 0 }

/-- `init_fallback_thread`: `FALLBACK_SENDER.get_or_init(...)`.  If the cell
is already initialised nothing happens; otherwise the initialiser creates the
channel, registers the JVM shutdown hook, starts the daemon dispatch thread
(counted by `startCount`) and stores `Some(sender)`. -/
def init_fallback_thread (s : FallbackState) : FallbackState :=
  match s.cell with
  | some _ => s
  | none => { cell := some true, queue := s.queue, startCount := s.startCount + 1 }

/-- `HandlerWaker::wake_fallback`:
`FALLBACK_SENDER.get().unwrap().lock().unwrap()` panics if the cell was never
initialised; `guard.as_ref().unwrap()` panics if the shutdown hook already
took the sender; otherwise `send(self).unwrap()` enqueues the waker. -/
def wake_fallback (w : HandlerWaker) (s : FallbackState) : Except Panic FallbackState :=
  match s.cell with
  | none => .error .unwrapNone
  | some false => .error .unwrapNone
  | some true => .ok { s with queue := s.queue ++ [w] }

/-- `<HandlerWaker as Wake>::wake`: try `wake_direct`; on any JNI error fall
back to `wake_fallback`.  Returns the new process state and the effects of
the direct path. -/
def wake (env : HostEnv) (w : HandlerWaker) (s : FallbackState) :
    Except Panic (FallbackState × List Effect) :=
  match wake_direct env w with
  | .ok effs => .ok (s, effs)
  | .error _ =>
    match wake_fallback w s with
    | .ok s' => .ok (s', [])
    | .error p => .error p

/-- `<HandlerWaker as Wake>::wake_by_ref`: identical to `wake` except that it
first clones the `Arc` (`self.clone().wake_fallback()`); cloning an `Arc`
yields a handle to the same `HandlerWaker`, so the cloned value is `w`
itself. -/
def wake_by_ref (env : HostEnv) (w : HandlerWaker) (s : FallbackState) :
    Except Panic (FallbackState × List Effect) :=
  match wake_direct env w with
  | .ok effs => .ok (s, effs)
  | .error _ =>
    match wake_fallback w s with
    | .ok s' => .ok (s', [])
    | .error p => .error p

/-- The shutdown hook registered by `init_fallback_thread`: lock the mutex
and `guard.take()` the sender.  It is only ever invoked after the cell was
initialised; from an uninitialised cell `FALLBACK_SENDER.get().unwrap()`
would panic and the state is left unchanged. -/
def shutdown_hook (s : FallbackState) : FallbackState :=
  match s.cell with
  | none => s
  | some _ => { s with cell := some false }

/-- The body of the fallback dispatch thread
(`for waker in receiver { waker.wake_direct().unwrap() }`), run over the
requests the channel delivers, using the dispatch thread's own attached
connection `env`.  Returns the post effects performed and whether the
`.unwrap()` panicked (which kills the loop: nothing after the failing
request is processed). -/
def fallback_loop (env : HostEnv) : List HandlerWaker → List Effect × Bool
  | [] => ([], false)
  | w :: rest =>
    match wake_direct env w with
    | .error _ => ([], true)
    | .ok effs =>
      let r := fallback_loop env rest
      (effs ++ r.1, r.2)

/-- Where the fallback dispatch thread's `for waker in receiver` loop can
end up: `finished` when `recv()` reports the channel disconnected (every
sender dropped) after the backlog is drained — the loop exits normally;
`panicked` when a redelivery's `wake_direct().unwrap()` panicked — the
thread dies, processing nothing further; `blocked` when the backlog is
drained but a sender is still alive — `recv()` blocks waiting for the next
request and the loop persists.  Each outcome carries the posts performed
before it was reached. -/
inductive LoopOutcome
  | finished (effs : List Effect)
  | panicked (effs : List Effect)
  | blocked (effs : List Effect)
deriving DecidableEq, Repr

/-- The receive loop of the fallback dispatch thread with the channel
semantics explicit: it processes the buffered backlog one request at a time
(`waker.wake_direct().unwrap()` on each, using the thread's own attached
connection `env`), and on an empty buffer either blocks on `recv()` while
the sender is alive or exits when the sender has been dropped. -/
def receive_loop (env : HostEnv) (senderLive : Bool) :
    List HandlerWaker → LoopOutcome
  | [] => if senderLive then .blocked [] else .finished []
  | w :: rest =>
    match wake_direct env w with
    | .error _ => .panicked []
    | .ok effs =>
      match receive_loop env senderLive rest with
      | .finished es => .finished (effs ++ es)
      | .panicked es => .panicked (effs ++ es)
      | .blocked es => .blocked (effs ++ es)

/-- The state captured by the `FnMut` closure built by
`JHandlerSpawn::wrap_future`: the future itself and the `waker_cell :
OnceCell<Waker>`.  A future that completes after `fut` more pending polls is
represented by that count: polling with `fut = 0` returns `Ready`, polling
with `fut = n+1` returns `Pending` and leaves `n`. -/
structure TaskState where
  fut : Nat
  waker_cell : Option HandlerWaker
deriving DecidableEq, Repr

/-- What one invocation of the `wrap_future` closure did: whether
`waker_cell.get_or_init` ran its initialiser (constructing a fresh
`HandlerWaker`), which waker the poll was given, whether the poll returned
`Ready`, and whether `close()` was called on the work item. -/
structure InvEff where
  constructed : Bool
  wakerUsed : HandlerWaker
  ready : Bool
  closed : Bool
deriving DecidableEq, Repr

/-- One invocation of the closure built by `JHandlerSpawn::wrap_future`, as
run by the host queue with the current work item `obj` (the `Runnable` the
queue is executing) for a spawner whose handler global ref is `handler`:
first `waker_cell.get_or_init` (building `HandlerWaker { vm, handler,
runnable = obj }` only if the cell is still empty — note this happens before
the poll, regardless of the poll's outcome), then exactly one poll with that
waker; on `Ready` it calls `close()` on `obj`, on `Pending` it does
nothing. -/
def wrapFutureStep (handler obj : Nat) (s : TaskState) : TaskState × InvEff :=
  let w := s.waker_cell.getD { handler := handler, runnable := obj }
  let constructed := s.waker_cell.isNone
  if s.fut = 0 then
    ({ fut := 0, waker_cell := some w },
     { constructed := constructed, wakerUsed := w, ready := true, closed := true })
  else
    ({ fut := s.fut - 1, waker_cell := some w },
     { constructed := constructed, wakerUsed := w, ready := false, closed := false })

/-- The host queue invoking the same work item `k` times in sequence (each
wake resubmits the identical `Runnable`, so every invocation runs the same
closure on the same captured state).  Returns the final closure state and
the per-invocation effects in order. -/
def runInvocations (handler obj : Nat) : Nat → TaskState → TaskState × List InvEff
  | 0, s => (s, [])
  | k + 1, s =>
    let r := wrapFutureStep handler obj s
    let rest := runInvocations handler obj k r.1
    (rest.1, r.2 :: rest.2)

/-- `SpawnError` as surfaced by `JHandlerSpawn`: `SpawnError::shutdown()`. -/
inductive SpawnError
  | shutdown
deriving DecidableEq, Repr

/-- The host queue's accepting/shut-down state plus the work items it has
accepted (by `Runnable` identity), in submission order. -/
structure HostQueue where
  accepting : Bool
  items : List Nat
deriving DecidableEq, Repr

/-- `Handler.post` as the queue sees it: append the item and return `true`
while accepting, reject with `false` once shut down. -/
def qpost (q : HostQueue) (item : Nat) : HostQueue × Bool :=
  if q.accepting then ({ q with items := q.items ++ [item] }, true) else (q, false)

/-- `JHandlerSpawn::post_spawn`: first `init_fallback_thread`, then
`self.0.post(runnable)`; a `true` return is `Ok(())`, a `false` return is
`Err(SpawnError::shutdown())`. -/
def post_spawn (s : FallbackState) (q : HostQueue) (runnable : Nat) :
    FallbackState × HostQueue × Except SpawnError Unit :=
  let s' := init_fallback_thread s
  let r := qpost q runnable
  (s', r.1, if r.2 then .ok () else .error .shutdown)

/-- `<JHandlerSpawn as Spawn>::spawn_obj` (and likewise `spawn_local_obj`):
wrap the future into a fresh closure state (`waker_cell` empty, future not
yet polled), materialise it as a `Runnable` with identity `runnable`, and
`post_spawn` it.  Returns the process state, the queue, the spawn result and
the task's closure state at the moment spawn returns. -/
def spawn_obj (s : FallbackState) (q : HostQueue) (fut : Nat) (runnable : Nat) :
    FallbackState × HostQueue × Except SpawnError Unit × TaskState :=
  let task : TaskState := { fut := fut, waker_cell := none }
  let r := post_spawn s q runnable
  (r.1, r.2.1, r.2.2, task)

/-- The host queue draining its accepted items: each accepted occurrence of
the spawned task's `Runnable` identity `obj` invokes the `wrap_future`
closure once; other items leave it untouched.  Returns the closure state
after the drain and the effects of the invocations that ran. -/
def driveQueue (handler obj : Nat) : List Nat → TaskState → TaskState × List InvEff
  | [], s => (s, [])
  | i :: rest, s =>
    if i = obj then
      let r := wrapFutureStep handler obj s
      let d := driveQueue handler obj rest r.1
      (d.1, r.2 :: d.2)
    else
      driveQueue handler obj rest s

/-- One process-level event touching the fallback machinery: a spawn through
`JHandlerSpawn` (which always runs `init_fallback_thread` first), a `wake()`
call on some task's waker from a thread seeing host conditions `env`, or the
JVM shutdown hook firing. -/
inductive Op
  | spawnOp (postOk : Bool) (runnable : Nat)
  | wakeOp (env : HostEnv) (w : HandlerWaker)
  | hookOp

/-- The effect of one `Op` on the process-wide fallback state.  A panicking
`wake` unwinds without having modified the cell or started a thread, so the
state is returned unchanged. -/
def stepOp (s : FallbackState) : Op → FallbackState
  | .spawnOp _ _ => init_fallback_thread s
  | .wakeOp env w =>
    match wake env w s with
    | .ok r => r.1
    | .error _ => s
  | .hookOp => shutdown_hook s

/-- Run a whole execution (a finite sequence of events) from a starting
state. -/
def runOps : FallbackState → List Op → FallbackState
  | s, [] => s
  | s, op :: rest => runOps (stepOp s op) rest

/-- The per-thread JVM state the log adapter touches: the pending Java
exception of the calling thread (by throwable identity) and the `log`
crate's global max level (`LevelFilter` as a number, `0 = Off`). -/
structure JvmState where
  pendingException : Option Nat
  maxLevel : Nat
deriving DecidableEq, Repr

/-- `DisableLogGuard::new()`: read `log::max_level()` and set it to
`LevelFilter::Off`; returns the saved level (the guard's field). -/
def disableLogGuardNew (s : JvmState) : Nat × JvmState :=
  (s.maxLevel, { s with maxLevel := 0 })

/-- `Drop for DisableLogGuard`: `log::set_max_level(self.0)`. -/
def disableLogGuardDrop (old : Nat) (s : JvmState) : JvmState :=
  { s with maxLevel := old }

/-- The "get any existing exceptions out of the way" prologue of
`AndroidLog::enabled` / `AndroidLog::log`: `exception_check`, then
`exception_occurred` + `exception_clear` if one is pending. -/
def exceptionStash (s : JvmState) : Option Nat × JvmState :=
  (s.pendingException, { s with pendingException := none })

/-- The "restore the old exception" epilogue: `env.throw(ex)` if one had
been stashed. -/
def exceptionRestore (ex : Option Nat) (s : JvmState) : JvmState :=
  match ex with
  | some e => { s with pendingException := some e }
  | none => s

/-- An observable effect of the log adapter: a call to
`android.util.Log.println`. -/
inductive LogEffect
  | println (level : Nat) (target : String) (msg : String)
deriving DecidableEq, Repr

/-- `<AndroidLog as Log>::enabled`: create the `DisableLogGuard`, stash any
pending exception, query `android.util.Log.isLoggable` (the pure oracle
`isLoggable`), rethrow the stashed exception, and let the guard drop restore
the max level.  Returns the boolean and the final JVM state. -/
def enabledImpl (isLoggable : String → Nat → Bool) (target : String) (level : Nat)
    (s : JvmState) : Bool × JvmState :=
  let g := disableLogGuardNew s
  let st := exceptionStash g.2
  let result := isLoggable target level
  let s2 := exceptionRestore st.1 st.2
  (result, disableLogGuardDrop g.1 s2)

/-- `<AndroidLog as Log>::log`: same guard and exception stash/restore
bracket; in between, if `isLoggable` answers `true`, format the record and
call `android.util.Log.println`. -/
def logImpl (isLoggable : String → Nat → Bool) (target : String) (level : Nat)
    (msg : String) (s : JvmState) : List LogEffect × JvmState :=
  let g := disableLogGuardNew s
  let st := exceptionStash g.2
  let effs := if isLoggable target level then [LogEffect.println level target msg] else []
  let s2 := exceptionRestore st.1 st.2
  (effs, disableLogGuardDrop g.1 s2)

/-- The effect sequence of having the host queue invoke a freshly spawned
task's work item `N + 1` times, for a future that completes after `N`
pending polls (the closure starts with an empty `waker_cell`). -/
def driveEffects (handler obj N : Nat) : List InvEff :=
  (runInvocations handler obj (N + 1) { fut := N, waker_cell := none }).2

/-- Placeholder invocation effect used as the default of `List.getD`. -/
def defaultInvEff : InvEff :=
  { constructed := false, wakerUsed := { handler := 0, runnable := 0 },
    ready := false, closed := false }

/-! ## Supporting lemmas -/

/-- Closed form for driving one task's work item `k` times from an arbitrary
closure state: the final future count, the final waker cell, and every
per-invocation effect. -/
lemma runInvocations_eq (h o : Nat) :
    ∀ (k n : Nat) (cell : Option HandlerWaker),
    runInvocations h o k { fut := n, waker_cell := cell } =
      ({ fut := n - k,
         waker_cell := if k = 0 then cell else some (cell.getD ⟨h, o⟩) },
       List.ofFn fun i : Fin k =>
         { constructed := cell.isNone && decide (i.val = 0),
           wakerUsed := cell.getD ⟨h, o⟩,
           ready := decide (n ≤ i.val),
           closed := decide (n ≤ i.val) }) := by
  intro k
  induction k with
  | zero => intro n cell; simp [runInvocations]
  | succ k ih =>
    intro n cell
    rcases n with _ | m
    · have hstep : wrapFutureStep h o { fut := 0, waker_cell := cell } =
          ({ fut := 0, waker_cell := some (cell.getD ⟨h, o⟩) },
           { constructed := cell.isNone, wakerUsed := cell.getD ⟨h, o⟩,
             ready := true, closed := true }) := rfl
      rw [runInvocations, hstep]
      rw [ih 0 (some (cell.getD ⟨h, o⟩))]
      rw [List.ofFn_succ, Prod.ext_iff]
      refine ⟨?_, ?_⟩
      · simp
      · simp only [List.cons.injEq]
        refine ⟨?_, ?_⟩
        · simp
        · apply congrArg List.ofFn
          funext i
          simp [Nat.zero_le]
    · have hstep : wrapFutureStep h o { fut := m + 1, waker_cell := cell } =
          ({ fut := m, waker_cell := some (cell.getD ⟨h, o⟩) },
           { constructed := cell.isNone, wakerUsed := cell.getD ⟨h, o⟩,
             ready := false, closed := false }) := rfl
      rw [runInvocations, hstep]
      rw [ih m (some (cell.getD ⟨h, o⟩))]
      rw [List.ofFn_succ, Prod.ext_iff]
      refine ⟨?_, ?_⟩
      · simp [Nat.succ_sub_succ]
      · simp only [List.cons.injEq]
        refine ⟨?_, ?_⟩
        · simp
        · apply congrArg List.ofFn
          funext i
          simp [Nat.succ_le_succ_iff]

/-- Driving a freshly spawned task `n + 1` times closes exactly once. -/
lemma countP_closed_runInvocations (h o : Nat) :
    ∀ (n : Nat) (cell : Option HandlerWaker),
    ((runInvocations h o (n + 1) { fut := n, waker_cell := cell }).2.countP
      (fun e => e.closed)) = 1 := by
  intro n
  induction n with
  | zero =>
    intro cell
    simp [runInvocations, wrapFutureStep, List.countP_cons, List.countP_nil]
  | succ m ih =>
    intro cell
    have hstep : wrapFutureStep h o { fut := m + 1, waker_cell := cell } =
        ({ fut := m, waker_cell := some (cell.getD ⟨h, o⟩) },
         { constructed := cell.isNone, wakerUsed := cell.getD ⟨h, o⟩,
           ready := false, closed := false }) := rfl
    rw [runInvocations, hstep]
    simp only [List.countP_cons]
    simpa using ih (some (cell.getD ⟨h, o⟩))

/-- A queue drain that contains no occurrence of the task's own work item
never invokes the task's closure. -/
lemma driveQueue_not_mem (handler obj : Nat) :
    ∀ (items : List Nat) (s : TaskState), obj ∉ items →
    driveQueue handler obj items s = (s, []) := by
  intro items
  induction items with
  | nil => intro s _; rfl
  | cons i rest ih =>
    intro s hmem
    have hi : ¬ i = obj := by
      intro hEq
      exact hmem (hEq ▸ List.mem_cons_self i rest)
    rw [driveQueue, if_neg hi]
    exact ih s (fun hm => hmem (List.mem_cons_of_mem i hm))

/-- `wake_direct` succeeding means it performed exactly one `post` of the
waker's own runnable to the waker's own handler. -/
lemma wake_direct_ok_form (env : HostEnv) (w : HandlerWaker)
    (hw : (wake_direct env w).isOk) :
    ∃ b, wake_direct env w = .ok [.post w.handler w.runnable b] := by
  unfold wake_direct at hw ⊢
  by_cases ha : env.attached
  · by_cases hl : env.lookupOk
    · simp only [ha, hl, not_true_eq_false, if_false]
      cases hpo : env.postOutcome w.handler with
      | error e => simp [hpo, Except.isOk, Except.toBool, ha, hl] at hw
      | ok b => exact ⟨b, by simp [hpo]⟩
    · simp [ha, hl, Except.isOk, Except.toBool] at hw
  · simp [ha, Except.isOk, Except.toBool] at hw

/-- If every request's `wake_direct` returns `Ok` (in particular when a
target queue has merely shut down, since `post`'s `false` is discarded), the
fallback dispatch loop never panics, performs one post per request, and
performs a post for every request. -/
lemma fallback_loop_all_ok (env : HostEnv) :
    ∀ (l : List HandlerWaker), (∀ w ∈ l, (wake_direct env w).isOk) →
    (fallback_loop env l).2 = false
    ∧ (fallback_loop env l).1.length = l.length
    ∧ ∀ w ∈ l, ∃ b, Effect.post w.handler w.runnable b ∈ (fallback_loop env l).1 := by
  intro l
  induction l with
  | nil => intro _; exact ⟨rfl, rfl, by simp⟩
  | cons w rest ih =>
    intro hok
    have hw : (wake_direct env w).isOk := hok w (List.mem_cons_self w rest)
    have hrest := ih (fun x hx => hok x (List.mem_cons_of_mem w hx))
    obtain ⟨b, hb⟩ := wake_direct_ok_form env w hw
    rw [fallback_loop, hb]
    refine ⟨hrest.1, ?_, ?_⟩
    · simpa using hrest.2.1
    · intro x hx
      rcases List.mem_cons.mp hx with hxw | hxr
      · exact ⟨b, by simp [hxw]⟩
      · obtain ⟨b', hb'⟩ := hrest.2.2 x hxr
        exact ⟨b', by simp [hb']⟩

/-- When every backlog redelivery's `wake_direct` returns `Ok`, the receive
loop performs all the posts and then either blocks on `recv()` (sender still
alive: the thread persists) or exits normally (sender dropped: the loop
terminates cleanly).  It never panics in that case. -/
lemma receive_loop_all_ok (env : HostEnv) :
    ∀ (l : List HandlerWaker) (senderLive : Bool),
    (∀ w ∈ l, (wake_direct env w).isOk) →
    ∃ effs, receive_loop env senderLive l
      = if senderLive then .blocked effs else .finished effs := by
  intro l
  induction l with
  | nil =>
    intro senderLive _
    exact ⟨[], by cases senderLive <;> simp [receive_loop]⟩
  | cons w rest ih =>
    intro senderLive hok
    have hw : (wake_direct env w).isOk := hok w (List.mem_cons_self w rest)
    obtain ⟨b, hb⟩ := wake_direct_ok_form env w hw
    obtain ⟨es, hes⟩ := ih senderLive (fun x hx => hok x (List.mem_cons_of_mem w hx))
    refine ⟨[.post w.handler w.runnable b] ++ es, ?_⟩
    rw [receive_loop, hb]
    cases senderLive with
    | false => rw [hes]; simp
    | true => rw [hes]; simp

/-- Single-step preservation of the fallback-state invariants: the start
count never exceeds one, an uninitialised cell means the thread never
started, and a torn-down sender stays torn down. -/
lemma stepOp_inv (s : FallbackState) (op : Op) :
    ((stepOp s op).startCount = s.startCount ∧ (stepOp s op).cell = s.cell)
    ∨ (s.cell = none ∧ (stepOp s op).startCount = s.startCount + 1
        ∧ (stepOp s op).cell = some true)
    ∨ (s.cell ≠ none ∧ (stepOp s op).startCount = s.startCount
        ∧ (stepOp s op).cell = some false) := by
  cases op with
  | spawnOp postOk r =>
    cases hc : s.cell with
    | none => exact Or.inr (Or.inl ⟨by simp [hc], by simp [stepOp, init_fallback_thread, hc]⟩)
    | some b => exact Or.inl (by simp [stepOp, init_fallback_thread, hc])
  | wakeOp env w =>
    simp only [stepOp]
    cases hd : wake_direct env w with
    | ok effs => exact Or.inl (by simp [wake, hd])
    | error e =>
      cases hc : s.cell with
      | none => exact Or.inl (by simp [wake, hd, wake_fallback, hc])
      | some b =>
        cases b with
        | false => exact Or.inl (by simp [wake, hd, wake_fallback, hc])
        | true => exact Or.inl (by simp [wake, hd, wake_fallback, hc])
  | hookOp =>
    cases hc : s.cell with
    | none => exact Or.inl (by simp [stepOp, shutdown_hook, hc])
    | some b =>
      exact Or.inr (Or.inr ⟨by simp [hc], by simp [stepOp, shutdown_hook, hc], by
        simp [stepOp, shutdown_hook, hc]⟩)

/-- The invariant carried along executions: count at most one, and an
uninitialised cell means a zero count. -/
def FallbackInv (s : FallbackState) : Prop :=
  s.startCount ≤ 1 ∧ (s.cell = none → s.startCount = 0)

lemma runOps_inv : ∀ (ops : List Op) (s : FallbackState), FallbackInv s →
    FallbackInv (runOps s ops) := by
  intro ops
  induction ops with
  | nil => intro s hs; exact hs
  | cons op rest ih =>
    intro s hs
    refine ih (stepOp s op) ?_
    rcases stepOp_inv s op with ⟨h1, h2⟩ | ⟨h0, h1, h2⟩ | ⟨h0, h1, h2⟩
    · exact ⟨h1 ▸ hs.1, fun hc => h1 ▸ hs.2 (h2 ▸ hc)⟩
    · refine ⟨?_, fun hc => by rw [h2] at hc; cases hc⟩
      rw [h1, hs.2 h0]
    · refine ⟨h1 ▸ hs.1, fun hc => by rw [h2] at hc; cases hc⟩

/-- Once the sender is torn down (`cell = some false`), no later event can
revive it. -/
lemma runOps_torn_down : ∀ (ops : List Op) (s : FallbackState),
    s.cell = some false → (runOps s ops).cell = some false := by
  intro ops
  induction ops with
  | nil => intro s hs; exact hs
  | cons op rest ih =>
    intro s hs
    refine ih (stepOp s op) ?_
    rcases stepOp_inv s op with ⟨_, h2⟩ | ⟨h0, _, _⟩ | ⟨_, _, h2⟩
    · exact h2 ▸ hs
    · rw [h0] at hs; cases hs
    · exact h2

/-- Spawn-free executions never start the fallback dispatch thread and never
initialise the cell. -/
lemma runOps_no_spawn : ∀ (ops : List Op) (s : FallbackState),
    (∀ postOk r, Op.spawnOp postOk r ∉ ops) →
    (runOps s ops).startCount = s.startCount
    ∧ ((runOps s ops).cell = none ↔ s.cell = none) := by
  intro ops
  induction ops with
  | nil => intro s _; exact ⟨rfl, Iff.rfl⟩
  | cons op rest ih =>
    intro s hno
    have hrest : ∀ postOk r, Op.spawnOp postOk r ∉ rest := by
      intro postOk r hmem
      exact hno postOk r (List.mem_cons_of_mem op hmem)
    have hstep : (stepOp s op).startCount = s.startCount
        ∧ ((stepOp s op).cell = none ↔ s.cell = none) := by
      cases op with
      | spawnOp postOk r =>
        exact absurd (List.mem_cons_self _ rest) (hno postOk r)
      | wakeOp env w =>
        simp only [stepOp]
        cases hd : wake_direct env w with
        | ok effs => simp [wake, hd]
        | error e =>
          cases hc : s.cell with
          | none => simp [wake, hd, wake_fallback, hc]
          | some b =>
            cases b with
            | false => simp [wake, hd, wake_fallback, hc]
            | true => simp [wake, hd, wake_fallback, hc]
      | hookOp =>
        cases hc : s.cell with
        | none => simp [stepOp, shutdown_hook, hc]
        | some b => simp [stepOp, shutdown_hook, hc]
    have := ih (stepOp s op) hrest
    exact ⟨this.1.trans hstep.1, this.2.trans hstep.2⟩

/-! ## Claim theorems -/

/-- Claim C2: for every `wake()` call, if direct redelivery succeeds the same
work item (the waker's own runnable) is resubmitted to the queue via a `post`
and the call returns with the fallback state untouched; only if direct
redelivery is impossible (a JNI error from `wake_direct`) is the wake request
enqueued onto the fallback channel instead (shown here for a live sender,
with no direct `post` performed). -/
theorem claim_c2_wake_direct_or_fallback (env : HostEnv) (w : HandlerWaker)
    (s : FallbackState) :
    ((wake_direct env w).isOk →
      ∃ b, wake env w s = .ok (s, [.post w.handler w.runnable b]))
    ∧ (¬ (wake_direct env w).isOk → s.cell = some true →
      wake env w s = .ok ({ s with queue := s.queue ++ [w] }, [])) := by
  constructor
  · intro hok
    obtain ⟨b, hb⟩ := wake_direct_ok_form env w hok
    exact ⟨b, by simp [wake, hb]⟩
  · intro hnok hcell
    cases hd : wake_direct env w with
    | ok effs => rw [hd] at hnok; simp [Except.isOk, Except.toBool] at hnok
    | error e => simp [wake, hd, wake_fallback, hcell]

/-- Concrete instance of claim C2: a waker woken on an attached thread posts
its own runnable and leaves the fallback channel alone; woken on a detached
thread with a live sender, it enqueues itself on the channel instead. -/
theorem claim_c2_witness :
    (∃ b, wake ⟨true, true, fun _ => .ok true⟩ ⟨1, 2⟩ FallbackState.initial
        = .ok (FallbackState.initial, [.post 1 2 b]))
    ∧ wake ⟨false, true, fun _ => .ok true⟩ ⟨1, 2⟩ ⟨some true, [], 1⟩
        = .ok (⟨some true, [⟨1, 2⟩], 1⟩, []) :=
  ⟨(claim_c2_wake_direct_or_fallback ⟨true, true, fun _ => .ok true⟩ ⟨1, 2⟩
      FallbackState.initial).1 (by decide),
   (claim_c2_wake_direct_or_fallback ⟨false, true, fun _ => .ok true⟩ ⟨1, 2⟩
      ⟨some true, [], 1⟩).2 (by decide) rfl⟩

/-- Refutation of claim C3 as stated: with direct redelivery failing (the
thread is detached) and the fallback sender already torn down by the shutdown
hook, `wake()` does not return normally — `guard.as_ref().unwrap()` panics. -/
theorem claim_c3_counterexample :
    wake ⟨false, true, fun _ => .ok true⟩ ⟨1, 2⟩ ⟨some false, [], 1⟩
      = .error .unwrapNone := rfl

/-- Claim C3 as amended: when direct redelivery fails and the fallback sender
is unavailable (torn down by the shutdown hook, or never initialised), the
wake is not silently dropped — the call faults with a panic on `unwrap` of a
`None` value. -/
theorem claim_c3_wake_panics_when_both_fail (env : HostEnv) (w : HandlerWaker)
    (s : FallbackState) (hnd : ¬ (wake_direct env w).isOk)
    (hcell : s.cell ≠ some true) :
    wake env w s = .error .unwrapNone := by
  cases hd : wake_direct env w with
  | ok effs => rw [hd] at hnd; simp [Except.isOk, Except.toBool] at hnd
  | error e =>
    cases hc : s.cell with
    | none => simp [wake, hd, wake_fallback, hc]
    | some b =>
      cases b with
      | false => simp [wake, hd, wake_fallback, hc]
      | true => exact absurd hc hcell

/-- Concrete instance of amended claim C3: detached thread, torn-down sender,
`wake()` panics. -/
theorem claim_c3_witness :
    wake ⟨false, false, fun _ => .ok true⟩ ⟨3, 4⟩ ⟨some false, [], 1⟩
      = .error .unwrapNone :=
  claim_c3_wake_panics_when_both_fail ⟨false, false, fun _ => .ok true⟩ ⟨3, 4⟩
    ⟨some false, [], 1⟩ (by decide) (by decide)

/-- Claim C9: `HandlerWaker`'s `wake` (by value) and `wake_by_ref` (by
reference, which merely clones the `Arc` before the fallback send) perform
the same effects in every waker state and thread condition. -/
theorem claim_c9_wake_eq_wake_by_ref (env : HostEnv) (w : HandlerWaker)
    (s : FallbackState) :
    wake env w s = wake_by_ref env w s := rfl

/-- Claim C10: `AndroidLog::enabled` and `AndroidLog::log` leave the calling
thread's pending-exception state and the global log max level exactly as they
found them (the whole observable JVM state is restored), and the pending
exception is cleared for the duration of the bracketed body. -/
theorem claim_c10_log_preserves_jvm_state (isLoggable : String → Nat → Bool)
    (target : String) (level : Nat) (msg : String) (s : JvmState) :
    (enabledImpl isLoggable target level s).2 = s
    ∧ (logImpl isLoggable target level msg s).2 = s
    ∧ (exceptionStash (disableLogGuardNew s).2).2.pendingException = none := by
  obtain ⟨pe, ml⟩ := s
  cases pe with
  | none =>
    refine ⟨rfl, ?_, rfl⟩
    simp only [logImpl, disableLogGuardNew, exceptionStash, exceptionRestore,
      disableLogGuardDrop]
  | some e =>
    refine ⟨rfl, ?_, rfl⟩
    simp only [logImpl, disableLogGuardNew, exceptionStash, exceptionRestore,
      disableLogGuardDrop]

/-- Claim C1: spawning a future that completes after `N` pending polls and
having the host queue invoke its work item exactly `N + 1` times calls the
completion callback (`close()` on the work item) exactly once — on the last
invocation, which is the one whose poll returns `Ready`, and on no other. -/
theorem claim_c1_close_exactly_once (N handler obj : Nat) :
    (driveEffects handler obj N).countP (fun e => e.closed) = 1
    ∧ (driveEffects handler obj N).length = N + 1
    ∧ (∀ i, i < N + 1 →
        (((driveEffects handler obj N).getD i defaultInvEff).closed = true ↔ i = N)
        ∧ ((driveEffects handler obj N).getD i defaultInvEff).closed
            = ((driveEffects handler obj N).getD i defaultInvEff).ready) := by
  have heq : driveEffects handler obj N =
      List.ofFn (fun i : Fin (N + 1) =>
        ({ constructed := (none : Option HandlerWaker).isNone && decide (i.val = 0),
           wakerUsed := (none : Option HandlerWaker).getD ⟨handler, obj⟩,
           ready := decide (N ≤ i.val),
           closed := decide (N ≤ i.val) } : InvEff)) := by
    rw [driveEffects, runInvocations_eq]
  refine ⟨countP_closed_runInvocations handler obj N none, ?_, ?_⟩
  · rw [heq, List.length_ofFn]
  · intro i hi
    have hlen : i < (driveEffects handler obj N).length := by
      rw [heq, List.length_ofFn]; exact hi
    have hget : (driveEffects handler obj N).getD i defaultInvEff =
        { constructed := (none : Option HandlerWaker).isNone && decide (i = 0),
          wakerUsed := (none : Option HandlerWaker).getD ⟨handler, obj⟩,
          ready := decide (N ≤ i), closed := decide (N ≤ i) } := by
      rw [List.getD_eq_getElem _ _ hlen]
      have hlen2 : i < (List.ofFn (fun j : Fin (N + 1) =>
          ({ constructed := (none : Option HandlerWaker).isNone && decide (j.val = 0),
             wakerUsed := (none : Option HandlerWaker).getD ⟨handler, obj⟩,
             ready := decide (N ≤ j.val),
             closed := decide (N ≤ j.val) } : InvEff))).length := by
        rw [List.length_ofFn]; exact hi
      rw [List.getElem_of_eq heq hlen, List.getElem_ofFn]
    rw [hget]
    constructor
    · simp only [decide_eq_true_eq]
      omega
    · rfl

/-- Concrete instance of claim C1 at `N = 2`: three invocations, one `close`,
on the last invocation only, coinciding with the `Ready` poll. -/
theorem claim_c1_witness :
    (driveEffects 5 6 2).countP (fun e => e.closed) = 1
    ∧ (driveEffects 5 6 2).length = 3
    ∧ (((driveEffects 5 6 2).getD 2 defaultInvEff).closed = true ↔ 2 = 2)
    ∧ (((driveEffects 5 6 2).getD 0 defaultInvEff).closed = true ↔ 0 = 2)
    ∧ ((driveEffects 5 6 2).getD 2 defaultInvEff).closed
        = ((driveEffects 5 6 2).getD 2 defaultInvEff).ready :=
  ⟨(claim_c1_close_exactly_once 2 5 6).1,
   (claim_c1_close_exactly_once 2 5 6).2.1,
   ((claim_c1_close_exactly_once 2 5 6).2.2 2 (by decide)).1,
   ((claim_c1_close_exactly_once 2 5 6).2.2 0 (by decide)).1,
   ((claim_c1_close_exactly_once 2 5 6).2.2 2 (by decide)).2⟩

/-- Refutation of claim C5 as stated: for a future whose very first poll
returns `Ready` (zero pending polls), a waker is nonetheless constructed —
the single invocation reports `constructed = true` and `ready = true`, and
the waker cell ends up populated, because `waker_cell.get_or_init` runs
before the poll. -/
theorem claim_c5_counterexample :
    runInvocations 3 4 1 { fut := 0, waker_cell := none } =
      ({ fut := 0, waker_cell := some ⟨3, 4⟩ },
       [{ constructed := true, wakerUsed := ⟨3, 4⟩, ready := true,
          closed := true }]) := by decide

/-- Claim C5 as amended: the waker cell is initialised exactly once, on the
first invocation of the work item — before the first poll and regardless of
that poll's result — and every invocation (first or later) observes the
identical waker; after any positive number of invocations the cell holds that
same waker. -/
theorem claim_c5_waker_initialised_on_first_invocation (n k h o : Nat)
    (hk : 1 ≤ k) :
    (∀ i, i < (runInvocations h o k { fut := n, waker_cell := none }).2.length →
      ((((runInvocations h o k { fut := n, waker_cell := none }).2.getD i
          defaultInvEff).constructed = true ↔ i = 0)
        ∧ ((runInvocations h o k { fut := n, waker_cell := none }).2.getD i
            defaultInvEff).wakerUsed = ⟨h, o⟩))
    ∧ (runInvocations h o k { fut := n, waker_cell := none }).1.waker_cell
        = some ⟨h, o⟩ := by
  have heq := runInvocations_eq h o k n none
  constructor
  · intro i hi
    have hlen : i < ((runInvocations h o k
        { fut := n, waker_cell := none }).2).length := hi
    have hget : (runInvocations h o k { fut := n, waker_cell := none }).2.getD i
        defaultInvEff =
        { constructed := (none : Option HandlerWaker).isNone && decide (i = 0),
          wakerUsed := (none : Option HandlerWaker).getD ⟨h, o⟩,
          ready := decide (n ≤ i), closed := decide (n ≤ i) } := by
      rw [List.getD_eq_getElem _ _ hlen]
      have heq2 : (runInvocations h o k { fut := n, waker_cell := none }).2 =
          List.ofFn (fun j : Fin k =>
            ({ constructed := (none : Option HandlerWaker).isNone && decide (j.val = 0),
               wakerUsed := (none : Option HandlerWaker).getD ⟨h, o⟩,
               ready := decide (n ≤ j.val),
               closed := decide (n ≤ j.val) } : InvEff)) := by
        rw [heq]
      have hlen2 : i < (List.ofFn (fun j : Fin k =>
          ({ constructed := (none : Option HandlerWaker).isNone && decide (j.val = 0),
             wakerUsed := (none : Option HandlerWaker).getD ⟨h, o⟩,
             ready := decide (n ≤ j.val),
             closed := decide (n ≤ j.val) } : InvEff))).length := by
        rw [← heq2]; exact hlen
      rw [List.getElem_of_eq heq2 hlen, List.getElem_ofFn]
    rw [hget]
    constructor
    · simp
    · rfl
  · rw [heq]
    simp only
    rw [if_neg (by omega : ¬ k = 0)]
    rfl

/-- Concrete instance of amended claim C5: two invocations of a task whose
future needs one pending poll — the waker is constructed on invocation 0
only, both invocations see the identical waker, and the cell holds it. -/
theorem claim_c5_witness :
    (((runInvocations 7 8 2 { fut := 1, waker_cell := none }).2.getD 0
        defaultInvEff).constructed = true ↔ (0 : Nat) = 0)
    ∧ (((runInvocations 7 8 2 { fut := 1, waker_cell := none }).2.getD 1
        defaultInvEff).constructed = true ↔ (1 : Nat) = 0)
    ∧ ((runInvocations 7 8 2 { fut := 1, waker_cell := none }).2.getD 1
        defaultInvEff).wakerUsed = ⟨7, 8⟩
    ∧ (runInvocations 7 8 2 { fut := 1, waker_cell := none }).1.waker_cell
        = some ⟨7, 8⟩ :=
  ⟨((claim_c5_waker_initialised_on_first_invocation 1 2 7 8 (by decide)).1 0
      (by decide)).1,
   ((claim_c5_waker_initialised_on_first_invocation 1 2 7 8 (by decide)).1 1
      (by decide)).1,
   ((claim_c5_waker_initialised_on_first_invocation 1 2 7 8 (by decide)).1 1
      (by decide)).2,
   (claim_c5_waker_initialised_on_first_invocation 1 2 7 8 (by decide)).2⟩

/-- Refutation of claim C4 as stated: a received sequence of two wake
requests in which the first one's redelivery fails with a JNI error (its
queue's `post` throws) kills the loop — `wake_direct().unwrap()` panics, no
post is performed at all, and in particular the second, healthy request is
never processed. -/
theorem claim_c4_counterexample :
    fallback_loop
        ⟨true, true, fun h => if h = 1 then .error .javaException else .ok true⟩
        [⟨1, 10⟩, ⟨2, 20⟩]
      = ([], true) := by decide

/-- Claim C4 as amended: the loop survives exactly the redeliveries whose
`wake_direct` returns `Ok` — which includes the claim's own example of a
queue that has already shut down, since `post`'s `false` return is discarded.
When every received request's redelivery returns `Ok`, the loop never stops:
it performs one post per request and a post for every request.  (A redelivery
failing with a JNI error instead panics the thread, per the
counterexample.) -/
theorem claim_c4_loop_survives_ok_redeliveries (env : HostEnv)
    (l : List HandlerWaker) (hok : ∀ w ∈ l, (wake_direct env w).isOk) :
    (fallback_loop env l).2 = false
    ∧ (fallback_loop env l).1.length = l.length
    ∧ ∀ w ∈ l, ∃ b, Effect.post w.handler w.runnable b ∈ (fallback_loop env l).1 :=
  fallback_loop_all_ok env l hok

/-- Concrete instance of amended claim C4: queue 1 has shut down (its `post`
returns `false`) while queue 2 is healthy; both requests are processed and
the loop does not stop. -/
theorem claim_c4_witness :
    (fallback_loop ⟨true, true, fun h => .ok (decide (h = 2))⟩
        [⟨1, 10⟩, ⟨2, 20⟩]).2 = false
    ∧ (fallback_loop ⟨true, true, fun h => .ok (decide (h = 2))⟩
        [⟨1, 10⟩, ⟨2, 20⟩]).1.length = 2
    ∧ (∃ b, Effect.post 2 20 b ∈ (fallback_loop
        ⟨true, true, fun h => .ok (decide (h = 2))⟩ [⟨1, 10⟩, ⟨2, 20⟩]).1) :=
  ⟨(claim_c4_loop_survives_ok_redeliveries
      ⟨true, true, fun h => .ok (decide (h = 2))⟩ [⟨1, 10⟩, ⟨2, 20⟩]
      (by decide)).1,
   (claim_c4_loop_survives_ok_redeliveries
      ⟨true, true, fun h => .ok (decide (h = 2))⟩ [⟨1, 10⟩, ⟨2, 20⟩]
      (by decide)).2.1,
   (claim_c4_loop_survives_ok_redeliveries
      ⟨true, true, fun h => .ok (decide (h = 2))⟩ [⟨1, 10⟩, ⟨2, 20⟩]
      (by decide)).2.2 ⟨2, 20⟩ (by decide)⟩

/-- Refutation of claim C6 as stated: the execution consisting of one
successful spawn and nothing else contains no wake at all — a fortiori no
wake ever takes the fallback path, and indeed the fallback channel stays
empty — yet the fallback dispatch thread has been started (once), because
`post_spawn` unconditionally calls `init_fallback_thread`. -/
theorem claim_c6_counterexample :
    (runOps FallbackState.initial [Op.spawnOp true 7]).queue = []
    ∧ (runOps FallbackState.initial [Op.spawnOp true 7]).startCount = 1 := by
  decide

/-- Claim C6 as amended: the fallback dispatch thread is started on demand at
the first *spawn* through `JHandlerSpawn` (every `post_spawn` runs
`init_fallback_thread` before posting, and the first one starts the thread),
not at the first fallback wake; in every execution that never spawns, the
thread is never started. -/
theorem claim_c6_thread_started_at_first_spawn (s : FallbackState)
    (q : HostQueue) (r : Nat) (ops : List Op)
    (hns : ∀ postOk rn, Op.spawnOp postOk rn ∉ ops) :
    (post_spawn s q r).1 = init_fallback_thread s
    ∧ (s.cell = none → (post_spawn s q r).1.startCount = s.startCount + 1)
    ∧ (runOps FallbackState.initial ops).startCount = 0 := by
  refine ⟨rfl, ?_, ?_⟩
  · intro hc
    simp [post_spawn, init_fallback_thread, hc]
  · exact (runOps_no_spawn ops FallbackState.initial hns).1

/-- Concrete instance of amended claim C6: a first spawn from the pristine
state starts the thread (count goes from 0 to 1), while an execution holding
only a shutdown-hook event starts nothing. -/
theorem claim_c6_witness :
    (post_spawn FallbackState.initial ⟨true, []⟩ 5).1
      = init_fallback_thread FallbackState.initial
    ∧ (post_spawn FallbackState.initial ⟨true, []⟩ 5).1.startCount = 0 + 1
    ∧ (runOps FallbackState.initial [Op.hookOp]).startCount = 0 :=
  ⟨(claim_c6_thread_started_at_first_spawn FallbackState.initial ⟨true, []⟩ 5
      [Op.hookOp] (by intro p rn h; simp at h)).1,
   (claim_c6_thread_started_at_first_spawn FallbackState.initial ⟨true, []⟩ 5
      [Op.hookOp] (by intro p rn h; simp at h)).2.1 rfl,
   (claim_c6_thread_started_at_first_spawn FallbackState.initial ⟨true, []⟩ 5
      [Op.hookOp] (by intro p rn h; simp at h)).2.2⟩

/-- Refutation of claim C7 as stated: its conjunct "once started, the thread
persists until host shutdown" fails on the code.  Concretely: after a spawn
and one fallback-path wake, the thread has been started (cell initialised,
start count one) and the host has not shut down (the sender is still alive,
`cell = some true`), yet the dispatch thread's receive loop dies before any
shutdown — redelivering the buffered request hits a JNI error and
`wake_direct().unwrap()` panics the thread. -/
theorem claim_c7_counterexample :
    (runOps FallbackState.initial
        [Op.spawnOp true 5, Op.wakeOp ⟨false, true, fun _ => .ok true⟩ ⟨1, 10⟩])
      = { cell := some true, queue := [⟨1, 10⟩], startCount := 1 }
    ∧ receive_loop ⟨true, true, fun _ => .error .javaException⟩ true [⟨1, 10⟩]
      = .panicked [] := by decide

/-- Claim C7 as amended: across arbitrarily many spawns, wakes and hook
events the fallback dispatch thread is started at most once and never twice.
It does not necessarily persist until host shutdown — a JNI-error redelivery
panics its loop early (see the counterexample) — but as long as every
redelivery returns `Ok`, the loop persists (blocks on `recv()`) while the
sender is alive.  Whenever the thread has been started, the registered
shutdown hook tears down the channel sender; after that every fallback send
panics instead of enqueueing, no later event revives the sender, and the
receive loop, its channel disconnected, drains the finite backlog and
terminates cleanly (again provided those redeliveries return `Ok`). -/
theorem claim_c7_thread_lifecycle (ops : List Op) :
    (runOps FallbackState.initial ops).startCount ≤ 1
    ∧ (∀ env, (∀ w ∈ (runOps FallbackState.initial ops).queue,
          (wake_direct env w).isOk) →
        ∃ effs, receive_loop env true (runOps FallbackState.initial ops).queue
          = .blocked effs)
    ∧ ((runOps FallbackState.initial ops).cell ≠ none →
        (shutdown_hook (runOps FallbackState.initial ops)).cell = some false
        ∧ (∀ w, wake_fallback w (shutdown_hook (runOps FallbackState.initial ops))
            = .error .unwrapNone)
        ∧ (∀ more, (runOps (shutdown_hook (runOps FallbackState.initial ops))
            more).cell = some false)
        ∧ (∀ env, (∀ w ∈ (runOps FallbackState.initial ops).queue,
              (wake_direct env w).isOk) →
            ∃ effs, receive_loop env false (runOps FallbackState.initial ops).queue
              = .finished effs)) := by
  have hinv := runOps_inv ops FallbackState.initial
    ⟨by simp [FallbackState.initial], fun _ => rfl⟩
  refine ⟨hinv.1, ?_, ?_⟩
  · intro env hok
    obtain ⟨effs, heffs⟩ :=
      receive_loop_all_ok env (runOps FallbackState.initial ops).queue true hok
    exact ⟨effs, by simpa using heffs⟩
  · intro hne
    cases hc : (runOps FallbackState.initial ops).cell with
    | none => exact absurd hc hne
    | some b =>
      have hhook : (shutdown_hook (runOps FallbackState.initial ops)).cell
          = some false := by
        simp [shutdown_hook, hc]
      refine ⟨hhook, ?_, ?_, ?_⟩
      · intro w
        simp [wake_fallback, hhook]
      · intro more
        exact runOps_torn_down more _ hhook
      · intro env hok
        obtain ⟨effs, heffs⟩ :=
          receive_loop_all_ok env (runOps FallbackState.initial ops).queue false hok
        exact ⟨effs, by simpa using heffs⟩

/-- Concrete instance of amended claim C7: one spawn, then one fallback-path
wake leaving one request buffered.  The count is one; with a healthy env the
live loop blocks (persists) after posting the backlog; the hook tears the
sender down, a concrete fallback send then panics, the sender stays torn
down across a further spawn, and the disconnected loop drains the backlog
and finishes. -/
theorem claim_c7_witness :
    (runOps FallbackState.initial
        [Op.spawnOp true 5, Op.wakeOp ⟨false, true, fun _ => .ok true⟩ ⟨1, 10⟩]).startCount ≤ 1
    ∧ (∃ effs, receive_loop ⟨true, true, fun _ => .ok true⟩ true
        (runOps FallbackState.initial
          [Op.spawnOp true 5, Op.wakeOp ⟨false, true, fun _ => .ok true⟩ ⟨1, 10⟩]).queue
        = .blocked effs)
    ∧ (shutdown_hook (runOps FallbackState.initial
        [Op.spawnOp true 5, Op.wakeOp ⟨false, true, fun _ => .ok true⟩ ⟨1, 10⟩])).cell
        = some false
    ∧ wake_fallback ⟨2, 3⟩
        (shutdown_hook (runOps FallbackState.initial
          [Op.spawnOp true 5, Op.wakeOp ⟨false, true, fun _ => .ok true⟩ ⟨1, 10⟩]))
        = .error .unwrapNone
    ∧ (runOps (shutdown_hook (runOps FallbackState.initial
        [Op.spawnOp true 5, Op.wakeOp ⟨false, true, fun _ => .ok true⟩ ⟨1, 10⟩]))
        [Op.spawnOp true 6]).cell = some false
    ∧ (∃ effs, receive_loop ⟨true, true, fun _ => .ok true⟩ false
        (runOps FallbackState.initial
          [Op.spawnOp true 5, Op.wakeOp ⟨false, true, fun _ => .ok true⟩ ⟨1, 10⟩]).queue
        = .finished effs) :=
  ⟨(claim_c7_thread_lifecycle
      [Op.spawnOp true 5, Op.wakeOp ⟨false, true, fun _ => .ok true⟩ ⟨1, 10⟩]).1,
   (claim_c7_thread_lifecycle
      [Op.spawnOp true 5, Op.wakeOp ⟨false, true, fun _ => .ok true⟩ ⟨1, 10⟩]).2.1
      ⟨true, true, fun _ => .ok true⟩ (by decide),
   ((claim_c7_thread_lifecycle
      [Op.spawnOp true 5, Op.wakeOp ⟨false, true, fun _ => .ok true⟩ ⟨1, 10⟩]).2.2
      (by decide)).1,
   ((claim_c7_thread_lifecycle
      [Op.spawnOp true 5, Op.wakeOp ⟨false, true, fun _ => .ok true⟩ ⟨1, 10⟩]).2.2
      (by decide)).2.1 ⟨2, 3⟩,
   ((claim_c7_thread_lifecycle
      [Op.spawnOp true 5, Op.wakeOp ⟨false, true, fun _ => .ok true⟩ ⟨1, 10⟩]).2.2
      (by decide)).2.2.1 [Op.spawnOp true 6],
   ((claim_c7_thread_lifecycle
      [Op.spawnOp true 5, Op.wakeOp ⟨false, true, fun _ => .ok true⟩ ⟨1, 10⟩]).2.2
      (by decide)).2.2.2 ⟨true, true, fun _ => .ok true⟩ (by decide)⟩

/-- Claim C8: when the host queue's `post` returns `false` (queue shut down),
`spawn_obj` / `spawn_local_obj` report `SpawnError::shutdown()` to the
caller, the queue accepts nothing, and draining everything the queue holds
never invokes the task — its future is never polled and its waker cell is
never populated, so the wrapped future is dropped unpolled. -/
theorem claim_c8_shutdown_spawn_never_polls (s : FallbackState) (q : HostQueue)
    (fut runnable handler : Nat) (hacc : q.accepting = false)
    (hmem : runnable ∉ q.items) :
    (spawn_obj s q fut runnable).2.2.1 = .error .shutdown
    ∧ (spawn_obj s q fut runnable).2.1 = q
    ∧ driveQueue handler runnable (spawn_obj s q fut runnable).2.1.items
        (spawn_obj s q fut runnable).2.2.2
      = ({ fut := fut, waker_cell := none }, []) := by
  have hq : qpost q runnable = (q, false) := by simp [qpost, hacc]
  have h2 : (spawn_obj s q fut runnable).2.1 = q := by
    simp [spawn_obj, post_spawn, hq]
  refine ⟨?_, h2, ?_⟩
  · simp [spawn_obj, post_spawn, hq]
  · rw [h2]
    exact driveQueue_not_mem handler runnable q.items _ hmem

/-- Concrete instance of claim C8: spawning onto a shut-down queue that holds
one unrelated item yields a shutdown error, and the drain leaves the task
unpolled with an empty waker cell. -/
theorem claim_c8_witness :
    (spawn_obj FallbackState.initial ⟨false, [9]⟩ 2 5).2.2.1 = .error .shutdown
    ∧ (spawn_obj FallbackState.initial ⟨false, [9]⟩ 2 5).2.1 = ⟨false, [9]⟩
    ∧ driveQueue 0 5 (spawn_obj FallbackState.initial ⟨false, [9]⟩ 2 5).2.1.items
        (spawn_obj FallbackState.initial ⟨false, [9]⟩ 2 5).2.2.2
      = ({ fut := 2, waker_cell := none }, []) :=
  ⟨(claim_c8_shutdown_spawn_never_polls FallbackState.initial ⟨false, [9]⟩ 2 5 0
      rfl (by decide)).1,
   (claim_c8_shutdown_spawn_never_polls FallbackState.initial ⟨false, [9]⟩ 2 5 0
      rfl (by decide)).2.1,
   (claim_c8_shutdown_spawn_never_polls FallbackState.initial ⟨false, [9]⟩ 2 5 0
      rfl (by decide)).2.2⟩

end AndroidUtils
